import Mathlib

/-!
Verification of the Notetion run-tracking and cost-accounting engine
(`database_manager.py`): a shallow embedding of the `DatabaseManager`
class and its three record kinds (`ProcessingSession`, `ProcessedFile`,
`GeneratedNotes`), together with theorems settling the stated claims
about token counting, cost estimation, the session lifecycle, retention
cleanup, search and export.

Modelling conventions:
- timestamps are integers counting seconds (one day = 86400 seconds);
- Python floats (`temperature`, `processing_time_seconds`,
  `estimated_cost_usd`) are modelled as rationals, and Python's true
  division `/` as rational division;
- the external effectful dependencies (the tiktoken tokenizer reached
  through `tiktoken.encoding_for_model(model).encode(text)`, and the
  hashlib SHA-256 hex digest) are a parameter `Env`: `tryEncode` returns
  `none` exactly when the Python `try` block raises, and `fileHash` is
  the digest function `calculate_file_hash`;
- the SQLite store is a `DBState` of three lists in insertion order;
  SQLAlchemy's `query(...).first()` is `List.find?`, a filtered `delete()`
  is `List.filter`, and `ORDER BY created_at DESC` is an insertion sort
  by descending `created_at`.
-/

namespace Notetion

/-- External dependencies of `DatabaseManager`: `tryEncode model text`
is `tiktoken.encoding_for_model(model).encode(text)` (the token list),
`none` when that raises; `fileHash` is `calculate_file_hash`, the
SHA-256 hex digest of a string. -/
structure Env where
  tryEncode : String → String → Option (List Nat)
  fileHash : String → String

/-- `DatabaseManager.count_tokens`: length of the tiktoken encoding of
`text`, falling back to `len(text) // 4` when the lookup or the
encoding raises. -/
def count_tokens (env : Env) (text : String) (model : String) : Nat :=
  match env.tryEncode model text with
  | some toks => toks.length
  | none => text.length / 4

/-- Python's `str.lower()`: lowercase each character. -/
def pyLower (s : String) : String := ⟨s.data.map Char.toLower⟩

/-- Substring test on character lists (Python's `needle in hay`). -/
def listInfix (needle : List Char) : List Char → Bool
  | [] => needle.isEmpty
  | c :: rest => needle.isPrefixOf (c :: rest) || listInfix needle rest

/-- Python's `needle in hay` for strings. -/
def pyIn (needle hay : String) : Bool := listInfix needle.data hay.data

/-- `DatabaseManager.PRICING`: currency per 1000 tokens, `(input, output)`,
for the three models of the static table. -/
def PRICING (model : String) : Option (ℚ × ℚ) :=
  if model = "gpt-4" then some (3/100, 6/100)
  else if model = "gpt-4-turbo" then some (1/100, 3/100)
  else if model = "gpt-3.5-turbo" then some (15/10000, 2/1000)
  else none

/-- Round to the nearest integer, ties to the even integer (Python's
`round`). -/
def roundHalfEven (q : ℚ) : ℤ :=
  if q - ⌊q⌋ < 1/2 then ⌊q⌋
  else if 1/2 < q - ⌊q⌋ then ⌊q⌋ + 1
  else if 2 ∣ ⌊q⌋ then ⌊q⌋ else ⌊q⌋ + 1

/-- Python's `round(q, 6)`: round to 6 decimal places. -/
def round6 (q : ℚ) : ℚ := (roundHalfEven (q * 1000000) : ℚ) / 1000000

/-- `DatabaseManager.estimate_cost`: per-1K-token pricing of the model,
substituting the `gpt-4` row when the model is absent from the table,
rounded to 6 decimal places. -/
def estimate_cost (input_tokens output_tokens : Nat) (model : String) : ℚ :=
  let m := if (PRICING model).isSome then model else "gpt-4"
  let pricing := (PRICING m).getD (0, 0)
  let input_cost := ((input_tokens : ℚ) / 1000) * pricing.1
  let output_cost := ((output_tokens : ℚ) / 1000) * pricing.2
  round6 (input_cost + output_cost)

/-- One element of the `files_info` argument of
`start_processing_session`: a Python dict whose `content` key may be
absent (`file_info.get('content', '')`). -/
structure FileInfo where
  filename : String
  file_type : String
  file_size : Nat
  content : Option String
deriving DecidableEq

/-- A row of the `processing_sessions` table. -/
structure ProcessingSession where
  session_id : String
  created_at : Int
  model_used : String
  temperature : ℚ
  total_files : Nat
  processing_time_seconds : ℚ
  total_input_tokens : Nat
  total_output_tokens : Nat
  estimated_cost_usd : ℚ
  success : Bool
  error_message : Option String
  notes_length : Nat
deriving DecidableEq

/-- A row of the `processed_files` table. -/
structure ProcessedFile where
  session_id : String
  filename : String
  file_type : String
  file_size_bytes : Nat
  file_hash : String
  content_preview : Option String
  processing_success : Bool
  error_message : Option String
deriving DecidableEq

/-- A row of the `generated_notes` table. -/
structure GeneratedNotes where
  session_id : String
  notes_content : String
  notes_hash : String
  created_at : Int
deriving DecidableEq

/-- The store: the three tables, rows in insertion order. -/
structure DBState where
  sessions : List ProcessingSession
  files : List ProcessedFile
  notes : List GeneratedNotes
deriving DecidableEq

/-- The `ProcessedFile` row `start_processing_session` builds for one
`files_info` element: hash of the content, first 500 characters as
preview (`None` for empty content), `processing_success=True` and
`error_message=None`. -/
def mkFileRecord (env : Env) (session_id : String) (fi : FileInfo) : ProcessedFile :=
  let content := fi.content.getD ""
  { session_id := session_id
    filename := fi.filename
    file_type := fi.file_type
    file_size_bytes := fi.file_size
    file_hash := env.fileHash content
    content_preview := if content = "" then none else some (content.take 500)
    processing_success := true
    error_message := none }

/-- `DatabaseManager.start_processing_session`: sums
`count_tokens(content, model)` over `files_info` in order, inserts the
session row with outcome fields at their defaults and one file row per
input, and returns the session id. `session_id` and `now` stand for the
generated id and the creation clock reading. -/
def start_processing_session (env : Env) (st : DBState) (session_id : String)
    (now : Int) (model : String) (temperature : ℚ) (files_info : List FileInfo) :
    DBState × String :=
  let total_input_tokens :=
    files_info.foldl (fun acc fi => acc + count_tokens env (fi.content.getD "") model) 0
  let sess : ProcessingSession :=
    { session_id := session_id
      created_at := now
      model_used := model
      temperature := temperature
      total_files := files_info.length
      processing_time_seconds := 0
      total_input_tokens := total_input_tokens
      total_output_tokens := 0
      estimated_cost_usd := 0
      success := false
      error_message := none
      notes_length := 0 }
  ({ sessions := st.sessions ++ [sess]
     files := st.files ++ files_info.map (mkFileRecord env session_id)
     notes := st.notes }, session_id)

/-- Replace the first session row whose `session_id` matches (the row
SQLAlchemy's `filter_by(session_id=...).first()` finds and mutates). -/
def updateFirstSession : List ProcessingSession → String → ProcessingSession →
    List ProcessingSession
  | [], _, _ => []
  | s :: rest, sid, upd =>
      if s.session_id = sid then upd :: rest
      else s :: updateFirstSession rest sid upd

/-- The found session row after `complete_processing_session` overwrote
its outcome fields: output tokens recomputed from `notes_content` and
the stored model (`0` for empty content, Python truthiness of the
string), cost recomputed from the stored input tokens and those output
tokens, `notes_length` the character count of `notes_content`, and the
given `success`, `processing_time` and `error_message`. -/
def updatedSession (env : Env) (sess : ProcessingSession) (success : Bool)
    (notes_content : String) (processing_time : ℚ)
    (error_message : Option String) : ProcessingSession :=
  let output_tokens :=
    if notes_content = "" then 0 else count_tokens env notes_content sess.model_used
  { sess with
    success := success
    processing_time_seconds := processing_time
    total_output_tokens := output_tokens
    estimated_cost_usd := estimate_cost sess.total_input_tokens output_tokens sess.model_used
    notes_length := if notes_content = "" then 0 else notes_content.length
    error_message := error_message }

/-- The `GeneratedNotes` row `complete_processing_session` inserts on a
successful completion with non-empty output. -/
def mkNoteRecord (env : Env) (session_id : String) (notes_content : String)
    (created_at : Int) : GeneratedNotes :=
  { session_id := session_id
    notes_content := notes_content
    notes_hash := env.fileHash notes_content
    created_at := created_at }

/-- `DatabaseManager.complete_processing_session`: a no-op when no row
has the given id; otherwise recomputes output tokens and cost from the
stored model and input tokens, overwrites the outcome fields, and
appends a `GeneratedNotes` row when `success` holds and `notes_content`
is non-empty. The second component is the value the Python function
returns to its caller: `None` on every path (the source has no return
flag and performs no logging). -/
def complete_processing_session (env : Env) (st : DBState) (session_id : String)
    (success : Bool) (notes_content : String) (processing_time : ℚ)
    (error_message : Option String) (note_created_at : Int) : DBState × Option Bool :=
  match st.sessions.find? (fun s => s.session_id == session_id) with
  | none => (st, none)
  | some sess =>
    ({ sessions := updateFirstSession st.sessions session_id
         (updatedSession env sess success notes_content processing_time error_message)
       files := st.files
       notes :=
         if success = true ∧ notes_content ≠ "" then
           st.notes ++ [mkNoteRecord env session_id notes_content note_created_at]
         else st.notes }, none)

/-- The `ORDER BY created_at DESC` comparison: `a` is at least as new
as `b`. -/
def byNewest (a b : ProcessingSession) : Prop := b.created_at ≤ a.created_at

instance : DecidableRel byNewest :=
  fun a b => inferInstanceAs (Decidable (b.created_at ≤ a.created_at))

instance : IsTotal ProcessingSession byNewest :=
  ⟨fun a b => le_total b.created_at a.created_at⟩

instance : IsTrans ProcessingSession byNewest :=
  ⟨fun _ _ _ hab hbc => le_trans hbc hab⟩

/-- Session rows ordered newest `created_at` first
(`ORDER BY created_at DESC`). -/
def orderByNewest (l : List ProcessingSession) : List ProcessingSession :=
  List.insertionSort byNewest l

/-- `DatabaseManager.get_processing_history`: the `limit` newest session
rows. The Python dict built per row carries exactly the session's
columns, so the summary is the row itself. -/
def get_processing_history (st : DBState) (limit : Nat) : List ProcessingSession :=
  (orderByNewest st.sessions).take limit

/-- The summary dict `search_sessions` returns per surviving row. -/
structure SessionSummary where
  session_id : String
  created_at : Int
  model_used : String
  temperature : ℚ
  total_files : Nat
  processing_time_seconds : ℚ
  estimated_cost_usd : ℚ
  success : Bool
  notes_length : Nat
deriving DecidableEq

/-- Projection of a session row to its `search_sessions` summary. -/
def summaryOf (s : ProcessingSession) : SessionSummary :=
  { session_id := s.session_id
    created_at := s.created_at
    model_used := s.model_used
    temperature := s.temperature
    total_files := s.total_files
    processing_time_seconds := s.processing_time_seconds
    estimated_cost_usd := s.estimated_cost_usd
    success := s.success
    notes_length := s.notes_length }

/-- The text filter of `search_sessions`: the first stored note of the
session (`filter_by(session_id=...).first()`) exists and contains the
query case-insensitively. -/
def noteMatches (st : DBState) (query : String) (s : ProcessingSession) : Bool :=
  match st.notes.find? (fun n => n.session_id == s.session_id) with
  | some n => pyIn (pyLower query) (pyLower n.notes_content)
  | none => false

/-- The `if model:` stage of `search_sessions`: exact-model filter,
skipped for the empty string (Python falsiness). -/
def filterModel (model : String) (l : List ProcessingSession) : List ProcessingSession :=
  if model = "" then l else l.filter (fun s => s.model_used == model)

/-- The `if start_date:` stage of `search_sessions`: inclusive lower
bound on `created_at`, skipped for `None`. -/
def filterStart (start_date : Option Int) (l : List ProcessingSession) :
    List ProcessingSession :=
  match start_date with
  | some d => l.filter (fun s => decide (d ≤ s.created_at))
  | none => l

/-- The `if end_date:` stage of `search_sessions`: inclusive upper
bound on `created_at`, skipped for `None`. -/
def filterEnd (end_date : Option Int) (l : List ProcessingSession) :
    List ProcessingSession :=
  match end_date with
  | some d => l.filter (fun s => decide (s.created_at ≤ d))
  | none => l

/-- The `if query:` stage of `search_sessions`: keep rows whose first
stored note contains the query case-insensitively, skipped for the
empty query. -/
def filterText (st : DBState) (query : String) (l : List ProcessingSession) :
    List ProcessingSession :=
  if query = "" then l else l.filter (noteMatches st query)

/-- `DatabaseManager.search_sessions`: conjunctive filters (exact model
when `model` is non-empty, inclusive `created_at` bounds when supplied),
rows ordered newest first, then — for a non-empty `query` — kept only
when the first stored note of the row contains the query
case-insensitively; each survivor projected to its summary. -/
def search_sessions (st : DBState) (query : String) (model : String)
    (start_date end_date : Option Int) : List SessionSummary :=
  (filterText st query
    (orderByNewest (filterEnd end_date (filterStart start_date
      (filterModel model st.sessions))))).map summaryOf

/-- `DatabaseManager.export_data`: on format `csv` or `json`
(case-insensitively) returns the timestamped filename and the up to
1000 newest history rows it serializes; on any other format raises
`ValueError` before touching any file. `timestamp` stands for
`datetime.now().strftime(...)`. -/
def export_data (st : DBState) (timestamp : String) (format : String) :
    Except String (String × List ProcessingSession) :=
  let sessions := get_processing_history st 1000
  if pyLower format = "csv" then
    Except.ok ("notetion_export_" ++ timestamp ++ ".csv", sessions)
  else if pyLower format = "json" then
    Except.ok ("notetion_export_" ++ timestamp ++ ".json", sessions)
  else
    Except.error "Format must be csv or json"

/-- `DatabaseManager.cleanup_old_data`: deletes every session row
strictly older than `now` minus `days_to_keep` days together with the
file and note rows carrying one of the deleted ids, and returns how
many session rows were deleted. -/
def cleanup_old_data (st : DBState) (now : Int) (days_to_keep : Int) :
    DBState × Nat :=
  let cutoff := now - days_to_keep * 86400
  let old := st.sessions.filter (fun s => decide (s.created_at < cutoff))
  let oldIds := old.map (fun s => s.session_id)
  ({ sessions := st.sessions.filter (fun s => !(decide (s.created_at < cutoff)))
     files := st.files.filter (fun f => !(oldIds.contains f.session_id))
     notes := st.notes.filter (fun n => !(oldIds.contains n.session_id)) },
   old.length)

/-- States of the store reachable from an empty database through the
manager's mutating operations. -/
inductive Reachable : DBState → Prop where
  | init : Reachable ⟨[], [], []⟩
  | start (env : Env) (st : DBState) (sid : String) (now : Int) (model : String)
      (temp : ℚ) (files_info : List FileInfo) : Reachable st →
      Reachable (start_processing_session env st sid now model temp files_info).1
  | complete (env : Env) (st : DBState) (sid : String) (ok : Bool) (notes : String)
      (t : ℚ) (err : Option String) (nt : Int) : Reachable st →
      Reachable (complete_processing_session env st sid ok notes t err nt).1
  | cleanup (st : DBState) (now : Int) (d : Int) : Reachable st →
      Reachable (cleanup_old_data st now d).1

/-! ## Helper lemmas -/

lemma foldl_add_eq_sum {α : Type} (g : α → ℕ) (l : List α) (acc : ℕ) :
    l.foldl (fun a x => a + g x) acc = acc + (l.map g).sum := by
  induction l generalizing acc with
  | nil => simp
  | cons x xs ih => simp [ih, Nat.add_assoc]

lemma roundHalfEven_nonneg {q : ℚ} (h : 0 ≤ q) : 0 ≤ roundHalfEven q := by
  have hf : (0 : ℤ) ≤ ⌊q⌋ := Int.floor_nonneg.mpr h
  unfold roundHalfEven
  split_ifs <;> omega

lemma round6_nonneg {q : ℚ} (h : 0 ≤ q) : 0 ≤ round6 q := by
  unfold round6
  have h1 : (0 : ℚ) ≤ (roundHalfEven (q * 1000000) : ℚ) := by
    exact_mod_cast roundHalfEven_nonneg (by positivity)
  positivity

lemma PRICING_nonneg (m : String) (p : ℚ × ℚ) (hp : PRICING m = some p) :
    0 ≤ p.1 ∧ 0 ≤ p.2 := by
  unfold PRICING at hp
  split_ifs at hp <;> simp only [Option.some.injEq] at hp <;>
    (obtain rfl := hp.symm) <;> constructor <;> norm_num

/-! ## C1 -/

/-- C1: for every model, temperature and ordered file list `F`, the
session row `start_processing_session` creates carries
`total_input_tokens` equal to the sum of `count_tokens(f.content, model)`
over the files of `F` in the order given (`0` for an empty list). -/
theorem C1_start_session_total_input_tokens (env : Env) (st : DBState)
    (sid : String) (now : Int) (model : String) (temp : ℚ) (F : List FileInfo) :
    ∃ sess : ProcessingSession,
      (start_processing_session env st sid now model temp F).1.sessions
          = st.sessions ++ [sess]
        ∧ sess.session_id = sid
        ∧ sess.total_input_tokens
            = (F.map (fun fi => count_tokens env (fi.content.getD "") model)).sum := by
  refine ⟨_, rfl, rfl, ?_⟩
  simpa using foldl_add_eq_sum (fun fi => count_tokens env (fi.content.getD "") model) F 0

/-! ## C3 -/

/-- C3: `estimate_cost` prices with the table row of the model, falling
back to the `gpt-4` row when the model is absent; the result is the
per-1000-token formula rounded to 6 decimal places, is never negative,
and for an unknown model equals the cost at the default model (the
lookup never fails). -/
theorem C3_estimate_cost_spec (i o : Nat) (m : String) :
    ∃ p : ℚ × ℚ,
      (PRICING m = some p ∨ (PRICING m = none ∧ PRICING "gpt-4" = some p))
      ∧ estimate_cost i o m
          = round6 (((i : ℚ) / 1000) * p.1 + ((o : ℚ) / 1000) * p.2)
      ∧ 0 ≤ estimate_cost i o m
      ∧ (PRICING m = none → estimate_cost i o m = estimate_cost i o "gpt-4") := by
  by_cases hm : (PRICING m).isSome
  · obtain ⟨p, hp⟩ := Option.isSome_iff_exists.mp hm
    obtain ⟨hp1, hp2⟩ := PRICING_nonneg m p hp
    refine ⟨p, Or.inl hp, ?_, ?_, ?_⟩
    · simp [estimate_cost, hm, hp]
    · have : estimate_cost i o m
          = round6 (((i : ℚ) / 1000) * p.1 + ((o : ℚ) / 1000) * p.2) := by
        simp [estimate_cost, hm, hp]
      rw [this]
      apply round6_nonneg
      have hi : (0 : ℚ) ≤ (i : ℚ) / 1000 := by positivity
      have ho : (0 : ℚ) ≤ (o : ℚ) / 1000 := by positivity
      exact add_nonneg (mul_nonneg hi hp1) (mul_nonneg ho hp2)
    · intro hnone
      rw [hnone] at hp
      exact absurd hp (by simp)
  · have hnone : PRICING m = none := Option.not_isSome_iff_eq_none.mp hm
    have hg : PRICING "gpt-4" = some ((3 : ℚ)/100, (6 : ℚ)/100) := by
      simp [PRICING]
    refine ⟨((3 : ℚ)/100, (6 : ℚ)/100), Or.inr ⟨hnone, hg⟩, ?_, ?_, ?_⟩
    · simp [estimate_cost, hm, hg]
    · have : estimate_cost i o m
          = round6 (((i : ℚ) / 1000) * ((3 : ℚ)/100) + ((o : ℚ) / 1000) * ((6 : ℚ)/100)) := by
        simp [estimate_cost, hm, hg]
      rw [this]
      apply round6_nonneg
      positivity
    · intro _
      have h2 : (PRICING "gpt-4").isSome := by rw [hg]; rfl
      simp [estimate_cost, hm, h2]

/-! ## C8 -/

/-- C8: `count_tokens` never raises — it is total by construction: with
an available tokenizer it returns that tokenizer's exact count, on any
tokenizer failure it returns `len(text) // 4`, and (for a tokenizer
that encodes the empty string to no tokens, as a byte-pair encoder
does) empty text yields 0 tokens on either path. -/
theorem C8_count_tokens_total (env : Env) (text model : String) :
    (∀ toks, env.tryEncode model text = some toks →
        count_tokens env text model = toks.length)
    ∧ (env.tryEncode model text = none →
        count_tokens env text model = text.length / 4)
    ∧ ((∀ toks, env.tryEncode model "" = some toks → toks = []) →
        count_tokens env "" model = 0) := by
  refine ⟨?_, ?_, ?_⟩
  · intro toks h
    simp [count_tokens, h]
  · intro h
    simp [count_tokens, h]
  · intro h
    unfold count_tokens
    cases he : env.tryEncode model "" with
    | some toks => simp [h toks he]
    | none => simp

/-! ## Helper lemmas about `complete_processing_session` -/

lemma find?_updateFirstSession (l : List ProcessingSession) (sid : String)
    (upd : ProcessingSession) (hupd : upd.session_id = sid)
    (hsome : (l.find? (fun s => s.session_id == sid)).isSome) :
    (updateFirstSession l sid upd).find? (fun s => s.session_id == sid) = some upd := by
  induction l with
  | nil => simp [List.find?] at hsome
  | cons s rest ih =>
    by_cases h : s.session_id = sid
    · simp [updateFirstSession, h, List.find?, hupd]
    · have hb : (s.session_id == sid) = false := by simp [h]
      rw [List.find?_cons_of_neg _ (by simp [h])] at hsome
      simp only [updateFirstSession, if_neg h]
      rw [List.find?_cons_of_neg _ (by simp [h])]
      exact ih hsome

lemma complete_eq_of_find (env : Env) (st : DBState) (sid : String) (ok : Bool)
    (notes_content : String) (t : ℚ) (err : Option String) (nt : Int)
    (sess : ProcessingSession)
    (hfind : st.sessions.find? (fun s => s.session_id == sid) = some sess) :
    complete_processing_session env st sid ok notes_content t err nt =
      ({ sessions := updateFirstSession st.sessions sid
           (updatedSession env sess ok notes_content t err)
         files := st.files
         notes :=
           if ok = true ∧ notes_content ≠ "" then
             st.notes ++ [mkNoteRecord env sid notes_content nt]
           else st.notes }, none) := by
  unfold complete_processing_session
  rw [hfind]

lemma complete_files_unchanged (env : Env) (st : DBState) (sid : String) (ok : Bool)
    (notes_content : String) (t : ℚ) (err : Option String) (nt : Int) :
    (complete_processing_session env st sid ok notes_content t err nt).1.files
      = st.files := by
  unfold complete_processing_session
  cases st.sessions.find? (fun s => s.session_id == sid) <;> rfl

lemma updatedSession_session_id (env : Env) (sess : ProcessingSession) (ok : Bool)
    (notes_content : String) (t : ℚ) (err : Option String) :
    (updatedSession env sess ok notes_content t err).session_id = sess.session_id := rfl

/-! ## C2 -/

/-- C2: completing the same existing session twice leaves its outcome
fields (`success`, `processing_time_seconds`, `total_output_tokens`,
`estimated_cost_usd`, `notes_length`, `error_message`) exactly at the
values computed from the second call's arguments over the session's
stored model and input tokens; in particular the cost is recomputed,
not accumulated. -/
theorem C2_complete_twice_overwrites (env : Env) (st : DBState) (sid : String)
    (ok1 : Bool) (n1 : String) (t1 : ℚ) (e1 : Option String) (nt1 : Int)
    (ok2 : Bool) (n2 : String) (t2 : ℚ) (e2 : Option String) (nt2 : Int)
    (sess : ProcessingSession)
    (hfind : st.sessions.find? (fun s => s.session_id == sid) = some sess) :
    ((complete_processing_session env
        (complete_processing_session env st sid ok1 n1 t1 e1 nt1).1
        sid ok2 n2 t2 e2 nt2).1).sessions.find? (fun s => s.session_id == sid)
      = some { sess with
          success := ok2
          processing_time_seconds := t2
          total_output_tokens :=
            if n2 = "" then 0 else count_tokens env n2 sess.model_used
          estimated_cost_usd := estimate_cost sess.total_input_tokens
            (if n2 = "" then 0 else count_tokens env n2 sess.model_used)
            sess.model_used
          notes_length := if n2 = "" then 0 else n2.length
          error_message := e2 } := by
  have hsid : sess.session_id = sid := by
    simpa using List.find?_some hfind
  have h1 := complete_eq_of_find env st sid ok1 n1 t1 e1 nt1 sess hfind
  have hfind1 : ((complete_processing_session env st sid ok1 n1 t1 e1 nt1).1.sessions).find?
      (fun s => s.session_id == sid) = some (updatedSession env sess ok1 n1 t1 e1) := by
    rw [h1]
    exact find?_updateFirstSession st.sessions sid _
      (by rw [updatedSession_session_id]; exact hsid)
      (by rw [hfind]; rfl)
  have h2 := complete_eq_of_find env _ sid ok2 n2 t2 e2 nt2 _ hfind1
  rw [h2]
  have := find?_updateFirstSession
    ((complete_processing_session env st sid ok1 n1 t1 e1 nt1).1.sessions) sid
    (updatedSession env (updatedSession env sess ok1 n1 t1 e1) ok2 n2 t2 e2)
    (by rw [updatedSession_session_id, updatedSession_session_id]; exact hsid)
    (by rw [hfind1]; rfl)
  rw [this]
  rfl

/-! ## C4 -/

/-- C4: on an existing session, `complete_processing_session` inserts a
note row exactly when `success` holds and `notes_content` is non-empty,
that row carries `notes_content` and the content hasher's digest of it,
and the session row's `notes_length` becomes the character count of
`notes_content` (0 when it is empty). -/
theorem C4_note_insertion (env : Env) (st : DBState) (sid : String) (ok : Bool)
    (notes_content : String) (t : ℚ) (err : Option String) (nt : Int)
    (sess : ProcessingSession)
    (hfind : st.sessions.find? (fun s => s.session_id == sid) = some sess) :
    ((ok = true ∧ notes_content ≠ "") →
      (complete_processing_session env st sid ok notes_content t err nt).1.notes
        = st.notes ++ [{ session_id := sid
                         notes_content := notes_content
                         notes_hash := env.fileHash notes_content
                         created_at := nt }])
    ∧ (¬(ok = true ∧ notes_content ≠ "") →
      (complete_processing_session env st sid ok notes_content t err nt).1.notes
        = st.notes)
    ∧ ∃ s2 : ProcessingSession,
        (complete_processing_session env st sid ok notes_content t err nt).1.sessions.find?
            (fun s => s.session_id == sid) = some s2
          ∧ s2.notes_length = notes_content.length := by
  have hsid : sess.session_id = sid := by
    simpa using List.find?_some hfind
  rw [complete_eq_of_find env st sid ok notes_content t err nt sess hfind]
  refine ⟨?_, ?_, ?_⟩
  · intro h
    simp [mkNoteRecord, h]
  · intro h
    simp [h]
  · refine ⟨updatedSession env sess ok notes_content t err, ?_, ?_⟩
    · exact find?_updateFirstSession st.sessions sid _
        (by rw [updatedSession_session_id]; exact hsid)
        (by rw [hfind]; rfl)
    · by_cases h : notes_content = "" <;> simp [updatedSession, h]

/-! ## C6 -/

/-- C6 (amended): when no session row has the given id,
`complete_processing_session` is a total no-op — the store is returned
unchanged and nothing raises; and the value handed back to the caller
is `None` on every path, so the failure is not signalled through the
return value (and the source performs no logging). -/
theorem C6_unknown_session_noop (env : Env) (st : DBState) (sid : String)
    (ok : Bool) (notes_content : String) (t : ℚ) (err : Option String) (nt : Int) :
    (st.sessions.find? (fun s => s.session_id == sid) = none →
      complete_processing_session env st sid ok notes_content t err nt = (st, none))
    ∧ (complete_processing_session env st sid ok notes_content t err nt).2 = none := by
  constructor
  · intro h
    unfold complete_processing_session
    rw [h]
  · unfold complete_processing_session
    cases st.sessions.find? (fun s => s.session_id == sid) <;> rfl

/-! ## Test fixtures for the concrete witnesses and counterexamples -/

/-- An environment whose tokenizer always raises (pure fallback) and
whose digest is a stand-in deterministic function. -/
def testEnv : Env :=
  { tryEncode := fun _ _ => none
    fileHash := fun s => toString s.length }

/-- A freshly started session row, as `start_processing_session` leaves
it for a model `gpt-4` run with 8 input tokens. -/
def sampleSession : ProcessingSession :=
  { session_id := "s1"
    created_at := 0
    model_used := "gpt-4"
    temperature := 0
    total_files := 1
    processing_time_seconds := 0
    total_input_tokens := 8
    total_output_tokens := 0
    estimated_cost_usd := 0
    success := false
    error_message := none
    notes_length := 0 }

/-- A store holding the one freshly started session. -/
def sampleState : DBState :=
  { sessions := [sampleSession], files := [], notes := [] }

/-- C2 witness: the double completion evaluated on a concrete store. -/
theorem C2_witness :
    ((complete_processing_session testEnv
        (complete_processing_session testEnv sampleState "s1" true "aaaa" 1 none 0).1
        "s1" true "bbbbbbbb" 2 none 0).1).sessions.find? (fun s => s.session_id == "s1")
      = some { sampleSession with
          success := true
          processing_time_seconds := 2
          total_output_tokens :=
            if "bbbbbbbb" = "" then 0
            else count_tokens testEnv "bbbbbbbb" sampleSession.model_used
          estimated_cost_usd := estimate_cost sampleSession.total_input_tokens
            (if "bbbbbbbb" = "" then 0
             else count_tokens testEnv "bbbbbbbb" sampleSession.model_used)
            sampleSession.model_used
          notes_length := if "bbbbbbbb" = "" then 0 else "bbbbbbbb".length
          error_message := none } :=
  C2_complete_twice_overwrites testEnv sampleState "s1" true "aaaa" 1 none 0
    true "bbbbbbbb" 2 none 0 sampleSession rfl

/-- C4 witness: note insertion evaluated on a concrete store. -/
theorem C4_witness :
    ((true = true ∧ "notes1" ≠ "") →
      (complete_processing_session testEnv sampleState "s1" true "notes1" 1 none 7).1.notes
        = sampleState.notes ++ [{ session_id := "s1"
                                  notes_content := "notes1"
                                  notes_hash := testEnv.fileHash "notes1"
                                  created_at := 7 }])
    ∧ (¬(true = true ∧ "notes1" ≠ "") →
      (complete_processing_session testEnv sampleState "s1" true "notes1" 1 none 7).1.notes
        = sampleState.notes)
    ∧ ∃ s2 : ProcessingSession,
        (complete_processing_session testEnv sampleState "s1" true "notes1" 1 none 7).1.sessions.find?
            (fun s => s.session_id == "s1") = some s2
          ∧ s2.notes_length = "notes1".length :=
  C4_note_insertion testEnv sampleState "s1" true "notes1" 1 none 7 sampleSession rfl

/-- C6 counterexample to the observability part of the claim: completing
an id absent from a concrete store hands the caller the very value a
successful completion hands back (`None`), and leaves the store
untouched; no return flag or log distinguishes the failure. -/
theorem C6_counterexample :
    (complete_processing_session testEnv sampleState "missing" true "note" 1 none 0).2
        = (complete_processing_session testEnv sampleState "s1" true "note" 1 none 0).2
    ∧ (complete_processing_session testEnv sampleState "missing" true "note" 1 none 0).1
        = sampleState :=
  ⟨rfl, rfl⟩

/-! ## C5 -/

lemma length_filter_partition {α : Type} (p : α → Bool) (l : List α) :
    (l.filter p).length + (l.filter (fun a => !(p a))).length = l.length := by
  induction l with
  | nil => rfl
  | cons a l ih =>
    by_cases h : p a = true <;>
      simp [List.filter_cons, h] <;> omega

/-- C5: `cleanup_old_data` deletes a session row exactly when its
`created_at` is strictly older than `now` minus the retention window;
every file and note row carrying a deleted session's id is deleted in
the same operation while the rows of surviving sessions are untouched,
and the call returns the number of session rows removed. -/
theorem C5_cleanup_old_data (st : DBState) (now : Int) (d : Int) :
    (∀ s : ProcessingSession,
        s ∈ (cleanup_old_data st now d).1.sessions ↔
          s ∈ st.sessions ∧ ¬ s.created_at < now - d * 86400)
    ∧ (∀ f : ProcessedFile,
        f ∈ (cleanup_old_data st now d).1.files ↔
          f ∈ st.files ∧ ¬ ∃ s ∈ st.sessions,
            s.created_at < now - d * 86400 ∧ s.session_id = f.session_id)
    ∧ (∀ n : GeneratedNotes,
        n ∈ (cleanup_old_data st now d).1.notes ↔
          n ∈ st.notes ∧ ¬ ∃ s ∈ st.sessions,
            s.created_at < now - d * 86400 ∧ s.session_id = n.session_id)
    ∧ (cleanup_old_data st now d).2 + (cleanup_old_data st now d).1.sessions.length
        = st.sessions.length := by
  refine ⟨?_, ?_, ?_, ?_⟩
  · intro s
    simp [cleanup_old_data, List.mem_filter]
  · intro f
    simp [cleanup_old_data, List.mem_filter, List.mem_map]
  · intro n
    simp [cleanup_old_data, List.mem_filter, List.mem_map]
  · exact length_filter_partition
      (fun s => decide (s.created_at < now - d * 86400)) st.sessions

/-! ## C7 -/

lemma mem_filterModel {m : String} {l : List ProcessingSession} {s : ProcessingSession} :
    s ∈ filterModel m l ↔ s ∈ l ∧ (m ≠ "" → s.model_used = m) := by
  unfold filterModel
  by_cases h : m = "" <;> simp [h, List.mem_filter]

lemma mem_filterStart {sd : Option Int} {l : List ProcessingSession} {s : ProcessingSession} :
    s ∈ filterStart sd l ↔ s ∈ l ∧ (∀ d0, sd = some d0 → d0 ≤ s.created_at) := by
  cases sd <;> simp [filterStart, List.mem_filter]

lemma mem_filterEnd {ed : Option Int} {l : List ProcessingSession} {s : ProcessingSession} :
    s ∈ filterEnd ed l ↔ s ∈ l ∧ (∀ d0, ed = some d0 → s.created_at ≤ d0) := by
  cases ed <;> simp [filterEnd, List.mem_filter]

lemma mem_filterText {st : DBState} {q : String} {l : List ProcessingSession}
    {s : ProcessingSession} :
    s ∈ filterText st q l ↔ s ∈ l ∧ (q ≠ "" → noteMatches st q s = true) := by
  unfold filterText
  by_cases h : q = "" <;> simp [h, List.mem_filter]

lemma mem_orderByNewest {l : List ProcessingSession} {s : ProcessingSession} :
    s ∈ orderByNewest l ↔ s ∈ l :=
  (List.perm_insertionSort byNewest l).mem_iff

lemma mem_search_stages {st : DBState} {q m : String} {sd ed : Option Int}
    {s : ProcessingSession} :
    s ∈ filterText st q (orderByNewest (filterEnd ed (filterStart sd
        (filterModel m st.sessions)))) ↔
      s ∈ st.sessions ∧ (m ≠ "" → s.model_used = m)
        ∧ (∀ d0, sd = some d0 → d0 ≤ s.created_at)
        ∧ (∀ d0, ed = some d0 → s.created_at ≤ d0)
        ∧ (q ≠ "" → noteMatches st q s = true) := by
  rw [mem_filterText, mem_orderByNewest, mem_filterEnd, mem_filterStart, mem_filterModel]
  tauto

/-- C7 (amended): `search_sessions` applies its filters conjunctively —
a summary appears exactly for the stored sessions matching the exact
model filter (when supplied), lying within the inclusive date bounds
(when supplied) and, for a non-empty text query, whose FIRST stored
note contains the query case-insensitively (sessions without a note
are excluded) — and the results are ordered newest `created_at`
first. -/
theorem C7_search_filters (st : DBState) (q m : String) (sd ed : Option Int) :
    (∀ x : SessionSummary,
      x ∈ search_sessions st q m sd ed ↔
        ∃ s : ProcessingSession, s ∈ st.sessions ∧ summaryOf s = x
          ∧ (m ≠ "" → s.model_used = m)
          ∧ (∀ d0, sd = some d0 → d0 ≤ s.created_at)
          ∧ (∀ d0, ed = some d0 → s.created_at ≤ d0)
          ∧ (q ≠ "" → noteMatches st q s = true))
    ∧ List.Sorted (fun a b : SessionSummary => b.created_at ≤ a.created_at)
        (search_sessions st q m sd ed) := by
  constructor
  · intro x
    simp only [search_sessions, List.mem_map]
    constructor
    · rintro ⟨s, hs, rfl⟩
      obtain ⟨h0, h1, h2, h3, h4⟩ := mem_search_stages.mp hs
      exact ⟨s, h0, rfl, h1, h2, h3, h4⟩
    · rintro ⟨s, h0, rfl, h1, h2, h3, h4⟩
      exact ⟨s, mem_search_stages.mpr ⟨h0, h1, h2, h3, h4⟩, rfl⟩
  · have hs : List.Sorted byNewest
        (orderByNewest (filterEnd ed (filterStart sd (filterModel m st.sessions)))) :=
      List.sorted_insertionSort byNewest _
    have hs4 : List.Sorted byNewest
        (filterText st q (orderByNewest (filterEnd ed (filterStart sd
          (filterModel m st.sessions))))) := by
      unfold filterText
      split_ifs
      · exact hs
      · exact List.Pairwise.sublist (List.filter_sublist _) hs
    exact List.pairwise_map.mpr (hs4.imp fun h => h)

/-- The session row of the C7 counterexample store. -/
def cexSession : ProcessingSession :=
  { session_id := "s1"
    created_at := 0
    model_used := "gpt-4"
    temperature := 0
    total_files := 0
    processing_time_seconds := 0
    total_input_tokens := 0
    total_output_tokens := 0
    estimated_cost_usd := 0
    success := true
    error_message := none
    notes_length := 4 }

/-- A store whose one session carries two note rows (as two successful
completions leave it): the first stored note reads `alpha`, the second
`beta`. -/
def cexState : DBState :=
  { sessions := [cexSession]
    files := []
    notes := [{ session_id := "s1", notes_content := "alpha"
                notes_hash := "h1", created_at := 0 },
              { session_id := "s1", notes_content := "beta"
                notes_hash := "h2", created_at := 1 }] }

/-- C7 counterexample: the store holds a session with an associated note
whose content contains the query `beta` case-insensitively, yet
`search_sessions` returns nothing — only the FIRST stored note is
consulted, so "has an associated Note whose content contains the query"
does not characterise the result. -/
theorem C7_counterexample :
    search_sessions cexState "beta" "" none none = []
    ∧ cexSession ∈ cexState.sessions
    ∧ ∃ n ∈ cexState.notes, n.session_id = cexSession.session_id
        ∧ pyIn (pyLower "beta") (pyLower n.notes_content) = true := by
  refine ⟨by decide, List.mem_singleton.mpr rfl, by decide⟩

/-! ## C9 -/

/-- C9: `export_data` fails with the unsupported-format error — and
hands back no file — for every format outside `csv`/`json`
(case-insensitively); on a supported format it serializes the at most
1000 newest history rows and returns a filename embedding the export
timestamp. -/
theorem C9_export_data (st : DBState) (ts format : String) :
    ((pyLower format ≠ "csv" ∧ pyLower format ≠ "json") →
      export_data st ts format = Except.error "Format must be csv or json")
    ∧ (∀ fname sessions,
        export_data st ts format = Except.ok (fname, sessions) →
          sessions = get_processing_history st 1000
          ∧ sessions.length ≤ 1000
          ∧ (fname = "notetion_export_" ++ ts ++ ".csv"
              ∨ fname = "notetion_export_" ++ ts ++ ".json")) := by
  have hlen : (get_processing_history st 1000).length ≤ 1000 := by
    unfold get_processing_history
    rw [List.length_take]
    exact min_le_left _ _
  constructor
  · rintro ⟨h1, h2⟩
    simp [export_data, h1, h2]
  · intro fname sessions h
    unfold export_data at h
    by_cases h1 : pyLower format = "csv"
    · rw [if_pos h1] at h
      obtain ⟨rfl, rfl⟩ := by simpa using h
      exact ⟨rfl, hlen, Or.inl rfl⟩
    · rw [if_neg h1] at h
      by_cases h2 : pyLower format = "json"
      · rw [if_pos h2] at h
        obtain ⟨rfl, rfl⟩ := by simpa using h
        exact ⟨rfl, hlen, Or.inr rfl⟩
      · rw [if_neg h2] at h
        exact absurd h (by simp)

/-! ## C10 -/

/-- C10: every file row of any store reachable through the manager's
operations carries `processing_success = true` and
`error_message = none` — `start_processing_session` accepts no per-file
error information, records every file as successful, and no operation
mutates a file row afterwards. -/
theorem C10_file_rows_all_successful (st : DBState) (h : Reachable st) :
    ∀ f ∈ st.files, f.processing_success = true ∧ f.error_message = none := by
  induction h with
  | init =>
    intro f hf
    simp at hf
  | start env st0 sid now model temp fis _ ih =>
    intro f hf
    simp only [start_processing_session, List.mem_append, List.mem_map] at hf
    rcases hf with hf | ⟨fi, _, rfl⟩
    · exact ih f hf
    · exact ⟨rfl, rfl⟩
  | complete env st0 sid ok notes t err nt _ ih =>
    intro f hf
    rw [complete_files_unchanged] at hf
    exact ih f hf
  | cleanup st0 now d _ ih =>
    intro f hf
    have hf0 : f ∈ st0.files := by
      simp only [cleanup_old_data, List.mem_filter] at hf
      exact hf.1
    exact ih f hf0

/-- A concrete `files_info` element for the C10 witness. -/
def sampleFileInfo : FileInfo :=
  { filename := "a.txt"
    file_type := "txt"
    file_size := 4
    content := some "abcd" }

/-- C10 witness: the invariant read off a concrete reachable store with
one file row. -/
theorem C10_witness :
    (mkFileRecord testEnv "sw" sampleFileInfo).processing_success = true
    ∧ (mkFileRecord testEnv "sw" sampleFileInfo).error_message = none :=
  C10_file_rows_all_successful _
    (Reachable.start testEnv ⟨[], [], []⟩ "sw" 0 "gpt-4" 0 [sampleFileInfo]
      Reachable.init)
    _ (by simp [start_processing_session])

end Notetion
